import Mathlib

/-!
Verification of the `sample_data/generate.py` fixture generator of the
aac-demo repository, against its natural-language specification.

Embedding conventions:
* Timestamps and dates are modelled as whole minutes since `BASE_DATE`
  (2024-11-01 00:00).  `timedelta(days=d, hours=h, minutes=m)` becomes
  `d*1440 + h*60 + m`; ISO-format string order on these dates coincides
  with numeric order on the minute offsets.
* Python numeric literals are modelled by `PyNum`: the exact rational
  value of the decimal literal as written, together with a tag recording
  whether the literal is a Python `int` or a Python `float` (an IEEE-754
  binary64 value at run time).
* The Python standard `random` module and the Faker library are external
  dependencies, not code of this repository; they are modelled as
  deterministic state-passing generators (a seeded PRNG), which is the
  only property of theirs the generator relies on.
* The rating engine itself (pricing evaluators, reconciliation) is not
  in the repository source; where a claim needs it, it is modelled from
  the spec and marked as such.
-/

/-- Representation tag of a Python numeric literal: `int` or `float`. -/
inductive NumRep where
  | intLit : NumRep
  | floatLit : NumRep
deriving DecidableEq

/-- A Python numeric literal: its exact decimal value as written in the
source, and whether the literal is an `int` or a `float`. -/
structure PyNum where
  val : ℚ
  rep : NumRep
deriving DecidableEq

/-- Exact value of the decimal literal with mantissa `m` and `k` digits
after the decimal point, e.g. `dec 5 4 = 0.0005`. -/
def dec (m : ℤ) (k : ℕ) : ℚ := (m : ℚ) / 10 ^ k

/-- A rational is dyadic when it is an integer divided by a power of two;
every finite IEEE-754 binary floating-point value of any precision is
dyadic. -/
def IsDyadic (q : ℚ) : Prop := ∃ (m : ℤ) (e : ℕ), q = (m : ℚ) / 2 ^ e

/-- Step function of a 64-bit linear congruential generator.  This models
the deterministic pseudo-random state evolution of Python's `random`
module (an external dependency of the generator; only determinism and the
output range of `randint` matter to any claim, not the sampled values). -/
def lcgNext (s : ℕ) : ℕ := (6364136223846793005 * s + 1442695040888963407) % 2 ^ 64

/-- State of the Python `random` module PRNG (modelled; see `lcgNext`). -/
structure PyRandom where
  state : ℕ
deriving DecidableEq

/-- Model of `random.seed(n)`: fixes the PRNG state deterministically. -/
def random_seed (n : ℕ) : PyRandom := ⟨n⟩

/-- Model of `random.randint(lo, hi)`: returns a value in `[lo, hi]`
(inclusive on both ends, as in Python) and the advanced PRNG state. -/
def randint (lo hi : ℕ) (r : PyRandom) : ℕ × PyRandom :=
  let s := lcgNext r.state
  (lo + s % (hi - lo + 1), ⟨s⟩)

/-- State of the Faker generator (modelled: Faker is an external library;
seeded, it yields a deterministic sequence of strings, which is the only
property the generator relies on). -/
structure FakerState where
  state : ℕ
deriving DecidableEq

/-- Model of `Faker.seed(n)`: fixes the Faker state deterministically. -/
def Faker_seed (n : ℕ) : FakerState := ⟨n⟩

/-- Model of `fake.company()`: a deterministic string drawn from the
seeded Faker state (the string contents are irrelevant to every claim). -/
def fake_company (f : FakerState) : String × FakerState :=
  ("Company " ++ toString f.state, ⟨lcgNext f.state⟩)

/-- Model of `fake.company_email()`: deterministic string from the seeded
Faker state. -/
def fake_company_email (f : FakerState) : String × FakerState :=
  ("contact" ++ toString f.state ++ "@example.com", ⟨lcgNext f.state⟩)

/-- `BASE_DATE = datetime(2024, 11, 1)`, the origin of the minute-offset
time model. -/
def BASE_DATE : ℕ := 0

/-- Minutes in one day. -/
def minutesPerDay : ℕ := 1440

/-- `timedelta(days, hours, minutes)` as a minute offset. -/
def timedelta (days hours minutes : ℕ) : ℕ :=
  days * 1440 + hours * 60 + minutes

/-- Customer record, fields as in `generate_customers`. -/
structure Customer where
  customer_id : String
  name : String
  email : String
  created_at : ℕ
  tier : String
deriving DecidableEq

/-- Product record, fields as in `generate_products`. -/
structure Product where
  product_id : String
  name : String
  description : String
  unit : String
deriving DecidableEq

/-- Pricing dictionary of a contract or component.  Optional fields mirror
which keys are present in the Python dict for each pricing model. -/
structure Pricing where
  model : String
  free_units : ℤ
  rate_per_unit : Option PyNum
  overage_rate : Option PyNum
  upfront_payment : Option PyNum
  included_units : Option ℤ
deriving DecidableEq

/-- Component of a multi-product contract: a product and its pricing. -/
structure Component where
  product_id : String
  pricing : Pricing
deriving DecidableEq

/-- Contract record.  `cont_001`/`cont_002` have a top-level `product_id`
and `pricing` and no `components` key; `cont_003` has only `components`.
Absent keys are `none` / `[]`. -/
structure Contract where
  contract_id : String
  customer_id : String
  product_id : Option String
  contract_type : String
  start_date : ℕ
  end_date : ℕ
  pricing : Option Pricing
  components : List Component
deriving DecidableEq

/-- Metadata attached to every usage event. -/
structure EventMetadata where
  source : String
  version : String
deriving DecidableEq

/-- Usage event record, fields as in `generate_usage_events`. -/
structure UsageEvent where
  event_id : String
  customer_id : String
  product_id : String
  event_count : ℤ
  timestamp : ℕ
  metadata : EventMetadata
deriving DecidableEq

/-- Cash receipt record, fields as in `generate_cash_receipts`. -/
structure CashReceipt where
  receipt_id : String
  customer_id : String
  amount : PyNum
  currency : String
  payment_date : ℕ
  payment_method : String
  stripe_charge_id : String
  description : String
  status : String
deriving DecidableEq

/-- `generate_customers`: three customers; names and emails are drawn from
the seeded Faker state in call order. -/
def generate_customers (f : FakerState) : List Customer × FakerState :=
  let (n1, f1) := fake_company f
  let (e1, f2) := fake_company_email f1
  let (n2, f3) := fake_company f2
  let (e2, f4) := fake_company_email f3
  let (n3, f5) := fake_company f4
  let (e3, f6) := fake_company_email f5
  ([{ customer_id := "cust_001", name := n1, email := e1,
      created_at := BASE_DATE, tier := "free" },
    { customer_id := "cust_002", name := n2, email := e2,
      created_at := BASE_DATE, tier := "payg" },
    { customer_id := "cust_003", name := n3, email := e3,
      created_at := BASE_DATE, tier := "prepaid" }], f6)

/-- `generate_products`: three static products. -/
def generate_products : List Product :=
  [{ product_id := "prod_001", name := "Product Analytics",
     description := "Track and analyze user behavior and product metrics",
     unit := "event" },
   { product_id := "prod_002", name := "Session Replay",
     description := "Record and replay user sessions for debugging",
     unit := "session" },
   { product_id := "prod_003", name := "Feature Flags",
     description := "Control feature rollouts and A/B testing",
     unit := "flag_evaluation" }]

/-- `generate_contracts`: three contracts with different billing scenarios;
customer 3 has a single multi-product contract. -/
def generate_contracts : List Contract :=
  [{ contract_id := "cont_001", customer_id := "cust_001",
     product_id := some "prod_002", contract_type := "free_tier",
     start_date := BASE_DATE, end_date := BASE_DATE + timedelta 365 0 0,
     pricing := some
       { model := "free_tier", free_units := 1000000,
         rate_per_unit := none,
         overage_rate := some ⟨dec 0 1, .floatLit⟩,
         upfront_payment := none, included_units := none },
     components := [] },
   { contract_id := "cont_002", customer_id := "cust_002",
     product_id := some "prod_001", contract_type := "pay_as_you_go",
     start_date := BASE_DATE, end_date := BASE_DATE + timedelta 365 0 0,
     pricing := some
       { model := "payg_with_free_tier", free_units := 1000000,
         rate_per_unit := some ⟨dec 5 4, .floatLit⟩,
         overage_rate := none,
         upfront_payment := none, included_units := none },
     components := [] },
   { contract_id := "cont_003", customer_id := "cust_003",
     product_id := none, contract_type := "enterprise_multi_product",
     start_date := BASE_DATE, end_date := BASE_DATE + timedelta 365 0 0,
     pricing := none,
     components :=
       [{ product_id := "prod_001",
          pricing :=
            { model := "prepaid_with_free_tier", free_units := 1000000,
              rate_per_unit := some ⟨dec 2 4, .floatLit⟩,
              overage_rate := some ⟨dec 25 5, .floatLit⟩,
              upfront_payment := some ⟨dec 100000 2, .floatLit⟩,
              included_units := some 5000000 } },
        { product_id := "prod_002",
          pricing :=
            { model := "payg_with_free_tier", free_units := 1000000,
              rate_per_unit := some ⟨dec 8 4, .floatLit⟩,
              overage_rate := none,
              upfront_payment := none, included_units := none } },
        { product_id := "prod_003",
          pricing :=
            { model := "payg_with_free_tier", free_units := 1000000,
              rate_per_unit := some ⟨dec 8 5, .floatLit⟩,
              overage_rate := none,
              upfront_payment := none, included_units := none } }] }]

/-- String of the event counter `id` padded with zeros to six digits, as
in the Python format `evt_{id:06d}`. -/
def pad6 (n : ℕ) : String :=
  let s := toString n
  String.mk (List.replicate (6 - s.length) '0') ++ s

/-- Event identifier string `evt_{n:06d}`. -/
def eventIdStr (n : ℕ) : String := "evt_" ++ pad6 n

/-- One loop body of `generate_usage_events`: draw a random timestamp
`BASE_DATE + timedelta(days=randint(1,30), hours=randint(0,23),
minutes=randint(0,59))` and build the event record. -/
def genEvent (cust prod : String) (qty : ℤ) (id : ℕ) (g : PyRandom) :
    UsageEvent × PyRandom :=
  let d := randint 1 30 g
  let h := randint 0 23 d.2
  let m := randint 0 59 h.2
  ({ event_id := eventIdStr id, customer_id := cust, product_id := prod,
     event_count := qty, timestamp := BASE_DATE + timedelta d.1 h.1 m.1,
     metadata := { source := "production_api", version := "1.0" } }, m.2)

/-- One `for i in range(n)` block of `generate_usage_events`: `n` events
for a fixed customer, product and per-event quantity, with consecutive
event counter values starting at `id`. -/
def genBlock (cust prod : String) (qty : ℤ) :
    ℕ → ℕ → PyRandom → List UsageEvent × PyRandom
  | 0, _, g => ([], g)
  | n + 1, id, g =>
    let ev := genEvent cust prod qty id g
    let rest := genBlock cust prod qty n (id + 1) ev.2
    (ev.1 :: rest.1, rest.2)

/-- The five generation blocks of `generate_usage_events`, appended in
program order before sorting: 25 events for cust_001 on prod_002 at
32000 each, 50 for cust_002 on prod_001 at 80000, 50 for cust_003 on
prod_001 at 120000, 30 for cust_003 on prod_002 at 80000, and 20 for
cust_003 on prod_003 at 80000. -/
def rawUsageEvents (g : PyRandom) : List UsageEvent × PyRandom :=
  let r1 := genBlock "cust_001" "prod_002" 32000 25 1 g
  let r2 := genBlock "cust_002" "prod_001" 80000 50 26 r1.2
  let r3 := genBlock "cust_003" "prod_001" 120000 50 76 r2.2
  let r4 := genBlock "cust_003" "prod_002" 80000 30 126 r3.2
  let r5 := genBlock "cust_003" "prod_003" 80000 20 156 r4.2
  (r1.1 ++ r2.1 ++ r3.1 ++ r4.1 ++ r5.1, r5.2)

/-- Timestamp comparison used by `events.sort(key=lambda x: x["timestamp"])`:
ISO-format string order coincides with numeric order on minute offsets. -/
def tsLe (a b : UsageEvent) : Bool := a.timestamp ≤ b.timestamp

/-- `generate_usage_events`: the five blocks, sorted (stably) by
timestamp. -/
def generate_usage_events (g : PyRandom) : List UsageEvent × PyRandom :=
  let r := rawUsageEvents g
  (r.1.mergeSort tsLe, r.2)

/-- `generate_cash_receipts`: two mock Stripe receipts, for cust_002 and
cust_003. -/
def generate_cash_receipts : List CashReceipt :=
  [{ receipt_id := "ch_stripe_001", customer_id := "cust_002",
     amount := ⟨dec 200000 2, .floatLit⟩, currency := "USD",
     payment_date := BASE_DATE + timedelta 31 0 0,
     payment_method := "card", stripe_charge_id := "ch_3ABC123XYZ",
     description := "Product Analytics - November usage",
     status := "succeeded" },
   { receipt_id := "ch_stripe_002", customer_id := "cust_003",
     amount := ⟨dec 100000 2, .floatLit⟩, currency := "USD",
     payment_date := BASE_DATE,
     payment_method := "card", stripe_charge_id := "ch_3DEF456ABC",
     description := "Multi-product Bundle - Prepaid Credits",
     status := "succeeded" }]

/-- The full set of records emitted by one run of the generator. -/
structure Output where
  customers : List Customer
  products : List Product
  contracts : List Contract
  events : List UsageEvent
  receipts : List CashReceipt
deriving DecidableEq

/-- The source's `main`: run all five generators in program order, with
the Faker and `random` module states as explicit inputs (the program
fixes them by `Faker.seed(42)` and `random.seed(42)` before generating).
Named `main_run` because `main` is reserved in Lean. -/
def main_run (f : FakerState) (g : PyRandom) : Output :=
  let (customers, _) := generate_customers f
  let products := generate_products
  let contracts := generate_contracts
  let (events, _) := generate_usage_events g
  let receipts := generate_cash_receipts
  { customers := customers, products := products, contracts := contracts,
    events := events, receipts := receipts }

/-- Breakdown of one charge line, modelled from the spec:
`{free_units_applied, prepaid_units_applied, billable_units, rate_used,
amount}` (spec section 3, ChargeLine). -/
structure Breakdown where
  free_units_applied : ℤ
  prepaid_units_applied : ℤ
  billable_units : ℤ
  rate_used : ℚ
  amount : ℚ
deriving DecidableEq

/-- Rating errors, modelled from the spec (section 7 taxonomy; only the
kinds the claims need). -/
inductive RatingError where
  | InvalidUsage : RatingError
  | UnsupportedPricingModel : RatingError
  | PolicyViolation : RatingError
deriving DecidableEq

/-- Round a rational to the nearest integer, ties to even (banker's
rounding), modelled from the spec: "rounded to currency minor-unit
precision using round-half-even at the final step only". -/
def roundHalfEven (q : ℚ) : ℤ :=
  let f := ⌊q⌋
  if q - f < 1 / 2 then f
  else if 1 / 2 < q - f then f + 1
  else if f % 2 = 0 then f else f + 1

/-- Round a money amount to whole cents (currency minor units),
round-half-even, modelled from the spec. -/
def roundCents (q : ℚ) : ℚ := (roundHalfEven (q * 100) : ℚ) / 100

/-- Modelled from the spec: the `FreeTier` pricing evaluator (spec 4.1) —
the rating engine is not part of the repository source.  Amount is 0 when
quantity is at most `free_units`; a remainder beyond the free allowance
is a `PolicyViolation`, never silently charged or clamped; negative
quantity is `InvalidUsage`. -/
def evalFreeTier (free_units qty : ℤ) : Except RatingError Breakdown :=
  if qty < 0 then .error .InvalidUsage
  else if qty ≤ free_units then
    .ok { free_units_applied := qty, prepaid_units_applied := 0,
          billable_units := 0, rate_used := 0, amount := 0 }
  else .error .PolicyViolation

/-- Modelled from the spec: the `PayAsYouGoWithFreeTier` evaluator
(spec 4.1) — the rating engine is not part of the repository source.
`billable = max(0, quantity - free_units)`, `amount = billable *
rate_per_unit` in exact decimals, rounded half-even to cents at the
final step. -/
def evalPAYG (free_units : ℤ) (rate_per_unit : ℚ) (qty : ℤ) :
    Except RatingError Breakdown :=
  if qty < 0 then .error .InvalidUsage
  else
    let billable := max 0 (qty - free_units)
    .ok { free_units_applied := min qty free_units,
          prepaid_units_applied := 0, billable_units := billable,
          rate_used := rate_per_unit,
          amount := roundCents ((billable : ℚ) * rate_per_unit) }

/-- Modelled from the spec: the `PrepaidWithFreeTier` evaluator
(spec 4.1) — the rating engine is not part of the repository source.
Consumption order is free units first, then up to `included_units` from
the prepaid bucket (amount 0 per-unit, already paid via the upfront
payment, which is recorded separately as a receipt and not computed
here), then overage billed at `overage_rate`. -/
def evalPrepaid (free_units included_units : ℤ) (overage_rate : ℚ)
    (qty : ℤ) : Except RatingError Breakdown :=
  if qty < 0 then .error .InvalidUsage
  else
    let freeApplied := min qty free_units
    let prepaidApplied := min (qty - freeApplied) included_units
    let overage := qty - freeApplied - prepaidApplied
    .ok { free_units_applied := freeApplied,
          prepaid_units_applied := prepaidApplied,
          billable_units := overage, rate_used := overage_rate,
          amount := roundCents ((overage : ℚ) * overage_rate) }

/-- Modelled from the spec: dispatch a pricing record to its evaluator by
model tag (spec 4.1/9: tagged variant with one evaluator branch per
variant; unrecognized variant is `UnsupportedPricingModel`). -/
def evalPricing (p : Pricing) (qty : ℤ) : Except RatingError Breakdown :=
  if p.model = "free_tier" then evalFreeTier p.free_units qty
  else if p.model = "payg_with_free_tier" then
    match p.rate_per_unit with
    | some r => evalPAYG p.free_units r.val qty
    | none => .error .UnsupportedPricingModel
  else if p.model = "prepaid_with_free_tier" then
    match p.included_units, p.overage_rate with
    | some inc, some orate => evalPrepaid p.free_units inc orate.val qty
    | _, _ => .error .UnsupportedPricingModel
  else .error .UnsupportedPricingModel

/-- Modelled from the spec: total aggregated usage quantity of one
(customer, product) pair over a list of usage events (spec 4.2; the
claims aggregate over the whole generated event set). -/
def totalUsage (evs : List UsageEvent) (cust prod : String) : ℤ :=
  ((evs.filter
      (fun e => e.customer_id = cust && e.product_id = prod)).map
    (fun e => e.event_count)).sum

/-- Modelled from the spec: sum of the amounts of a customer's receipts
with status `succeeded` (spec 4.5: only succeeded receipts count). -/
def receiptsTotal (rs : List CashReceipt) (cust : String) : ℚ :=
  ((rs.filter
      (fun r => r.customer_id = cust && r.status = "succeeded")).map
    (fun r => r.amount.val)).sum

/-- Modelled from the spec: net balance = succeeded receipts minus
charges (spec 4.5). -/
def netBalance (rs : List CashReceipt) (cust : String)
    (charges : ℚ) : ℚ :=
  receiptsTotal rs cust - charges

/-- Modelled from the spec: the components of a contract, treating a
contract with a single top-level `product_id`/`pricing` as a
one-component contract (spec section 6). -/
def contractComponents (c : Contract) : List Component :=
  match c.product_id, c.pricing with
  | some p, some pr => [{ product_id := p, pricing := pr }]
  | _, _ => c.components

/-- Modelled from the spec: a contract component covers (customer,
product, instant) when the customer matches, the component's product
matches, and the instant lies in the contract's `[start, end)` validity
interval (spec 4.3). -/
def covers (c : Contract) (comp : Component) (cust prod : String)
    (t : ℕ) : Bool :=
  c.customer_id = cust && comp.product_id = prod &&
    (decide (c.start_date ≤ t) && decide (t < c.end_date))

/-- All (contract, component) pairs of a contract list, components
normalized by `contractComponents`. -/
def allComponents (cs : List Contract) : List (Contract × Component) :=
  cs.flatMap (fun c => (contractComponents c).map (fun comp => (c, comp)))

/-- The value drawn by `randint lo hi` lies in `[lo, hi]` when
`lo ≤ hi`. -/
theorem randint_mem (lo hi : ℕ) (r : PyRandom) (h : lo ≤ hi) :
    lo ≤ (randint lo hi r).1 ∧ (randint lo hi r).1 ≤ hi := by
  have hmod : lcgNext r.state % (hi - lo + 1) < hi - lo + 1 :=
    Nat.mod_lt _ (by omega)
  constructor
  · simp [randint]
  · simp only [randint]
    omega

/-- The (customer, product, quantity) triples of a generation block are
`n` copies of the block's fixed parameters, independent of the PRNG
state. -/
theorem genBlock_core (cust prod : String) (qty : ℤ) :
    ∀ (n id : ℕ) (g : PyRandom),
      (genBlock cust prod qty n id g).1.map
          (fun e => (e.customer_id, e.product_id, e.event_count)) =
        List.replicate n (cust, prod, qty)
  | 0, _, _ => rfl
  | n + 1, id, g => by
    simp only [genBlock, genEvent, List.map_cons, List.replicate_succ,
      genBlock_core cust prod qty n (id + 1)]

/-- The event identifiers of a generation block are the consecutive
counter values `id, id+1, ...`, independent of the PRNG state. -/
theorem genBlock_ids (cust prod : String) (qty : ℤ) :
    ∀ (n id : ℕ) (g : PyRandom),
      (genBlock cust prod qty n id g).1.map (fun e => e.event_id) =
        (List.range' id n).map eventIdStr
  | 0, _, _ => rfl
  | n + 1, id, g => by
    simp only [genBlock, genEvent, List.map_cons, List.range',
      List.map_cons, genBlock_ids cust prod qty n (id + 1)]

/-- Every timestamp produced by a generation block lies in the inclusive
minute range `[1440, 44639]`, i.e. between `BASE_DATE + 1 day` and
`BASE_DATE + 30 days + 23 hours + 59 minutes`. -/
theorem genBlock_ts (cust prod : String) (qty : ℤ) :
    ∀ (n id : ℕ) (g : PyRandom),
      ∀ ev ∈ (genBlock cust prod qty n id g).1,
        1440 ≤ ev.timestamp ∧ ev.timestamp ≤ 44639
  | 0, _, _ => by intro ev hev; cases hev
  | n + 1, id, g => by
    intro ev hev
    simp only [genBlock, List.mem_cons] at hev
    rcases hev with hev | hev
    · subst hev
      have hd := randint_mem 1 30 g (by omega)
      have hh := randint_mem 0 23 (randint 1 30 g).2 (by omega)
      have hm := randint_mem 0 59 (randint 0 23 (randint 1 30 g).2).2
        (by omega)
      simp only [genEvent, BASE_DATE, timedelta]
      omega
    · exact genBlock_ts cust prod qty n (id + 1) _ ev hev

/-- A generation block produces `n` events. -/
theorem genBlock_length (cust prod : String) (qty : ℤ) (n id : ℕ)
    (g : PyRandom) : (genBlock cust prod qty n id g).1.length = n := by
  have h := congrArg List.length (genBlock_core cust prod qty n id g)
  simpa using h

/-- Every event of a generation block carries the block's fixed customer,
product and quantity. -/
theorem genBlock_mem (cust prod : String) (qty : ℤ) :
    ∀ (n id : ℕ) (g : PyRandom),
      ∀ ev ∈ (genBlock cust prod qty n id g).1,
        ev.customer_id = cust ∧ ev.product_id = prod ∧
          ev.event_count = qty
  | 0, _, _ => by intro ev hev; cases hev
  | n + 1, id, g => by
    intro ev hev
    simp only [genBlock, List.mem_cons] at hev
    rcases hev with hev | hev
    · subst hev; exact ⟨rfl, rfl, rfl⟩
    · exact genBlock_mem cust prod qty n (id + 1) _ ev hev

/-- Filtering a generation block by a (customer, product) pair keeps the
whole block when the pair matches the block's parameters and nothing
otherwise. -/
theorem genBlock_filter (cust prod : String) (qty : ℤ) (c p : String) :
    ∀ (n id : ℕ) (g : PyRandom),
      (genBlock cust prod qty n id g).1.filter
          (fun e => e.customer_id = c && e.product_id = p) =
        (if cust = c ∧ prod = p then (genBlock cust prod qty n id g).1
         else [])
  | 0, _, _ => by simp [genBlock]
  | n + 1, id, g => by
    simp only [genBlock, List.filter_cons,
      genBlock_filter cust prod qty c p n (id + 1)]
    by_cases h : cust = c ∧ prod = p
    · simp [genEvent, h.1, h.2, h]
    · have h' : ¬(cust = c) ∨ ¬(prod = p) := by tauto
      rcases h' with h' | h' <;> simp [genEvent, h', h]

/-- Total usage of one (customer, product) pair over a generation block:
the whole block when the pair matches, zero otherwise. -/
theorem genBlock_totalUsage (cust prod : String) (qty : ℤ) (c p : String)
    (n id : ℕ) (g : PyRandom) :
    totalUsage (genBlock cust prod qty n id g).1 c p =
      (if cust = c ∧ prod = p then (n : ℤ) * qty else 0) := by
  unfold totalUsage
  rw [genBlock_filter]
  by_cases h : cust = c ∧ prod = p
  · rw [if_pos h, if_pos h]
    have hmap : (genBlock cust prod qty n id g).1.map
        (fun e => e.event_count) = List.replicate n qty := by
      have h2 := congrArg (List.map (fun t => t.2.2))
        (genBlock_core cust prod qty n id g)
      simpa [List.map_map, Function.comp] using h2
    rw [hmap]
    simp [List.sum_replicate, mul_comm]
  · rw [if_neg h, if_neg h]
    simp

/-- Total usage is additive over list concatenation. -/
theorem totalUsage_append (l1 l2 : List UsageEvent) (c p : String) :
    totalUsage (l1 ++ l2) c p = totalUsage l1 c p + totalUsage l2 c p := by
  simp [totalUsage, List.filter_append]

/-- Total usage is invariant under permutation of the event list. -/
theorem totalUsage_perm {l1 l2 : List UsageEvent} (h : l1.Perm l2)
    (c p : String) : totalUsage l1 c p = totalUsage l2 c p :=
  List.Perm.sum_eq (List.Perm.map _ (List.Perm.filter _ h))

/-- The sorted event list returned by `generate_usage_events` is a
permutation of the five raw generation blocks. -/
theorem generate_usage_events_perm (g : PyRandom) :
    (generate_usage_events g).1.Perm (rawUsageEvents g).1 :=
  List.mergeSort_perm (rawUsageEvents g).1 tsLe

/-- Total usage of a (customer, product) pair over the full generated
event set, for every PRNG state: the matching blocks contribute their
block totals. -/
theorem events_totalUsage (g : PyRandom) (c p : String) :
    totalUsage (generate_usage_events g).1 c p =
      (if "cust_001" = c ∧ "prod_002" = p then 25 * 32000 else 0) +
      (if "cust_002" = c ∧ "prod_001" = p then 50 * 80000 else 0) +
      (if "cust_003" = c ∧ "prod_001" = p then 50 * 120000 else 0) +
      (if "cust_003" = c ∧ "prod_002" = p then 30 * 80000 else 0) +
      (if "cust_003" = c ∧ "prod_003" = p then 20 * 80000 else 0) := by
  rw [totalUsage_perm (generate_usage_events_perm g)]
  simp only [rawUsageEvents]
  rw [totalUsage_append, totalUsage_append, totalUsage_append,
    totalUsage_append, genBlock_totalUsage, genBlock_totalUsage,
    genBlock_totalUsage, genBlock_totalUsage, genBlock_totalUsage]
  norm_num

/-- Number of events of a generation block matching a (customer, product)
pair: all `n` on a match, none otherwise. -/
theorem genBlock_countP (cust prod : String) (qty : ℤ) (c p : String)
    (n id : ℕ) (g : PyRandom) :
    ((genBlock cust prod qty n id g).1.countP
        (fun e => e.customer_id = c && e.product_id = p)) =
      (if cust = c ∧ prod = p then n else 0) := by
  rw [List.countP_eq_length_filter, genBlock_filter]
  by_cases h : cust = c ∧ prod = p
  · simp [h, genBlock_length]
  · simp [h]

/-- The generated event list has 175 events, for every PRNG state. -/
theorem events_length (g : PyRandom) :
    (generate_usage_events g).1.length = 175 := by
  rw [(generate_usage_events_perm g).length_eq]
  simp only [rawUsageEvents]
  simp [genBlock_length]

/-- Every generated event is one of the five block shapes: its customer,
product and per-event quantity match one of the five generation blocks. -/
theorem events_mem (g : PyRandom) :
    ∀ ev ∈ (generate_usage_events g).1,
      (ev.customer_id = "cust_001" ∧ ev.product_id = "prod_002" ∧
        ev.event_count = 32000) ∨
      (ev.customer_id = "cust_002" ∧ ev.product_id = "prod_001" ∧
        ev.event_count = 80000) ∨
      (ev.customer_id = "cust_003" ∧ ev.product_id = "prod_001" ∧
        ev.event_count = 120000) ∨
      (ev.customer_id = "cust_003" ∧ ev.product_id = "prod_002" ∧
        ev.event_count = 80000) ∨
      (ev.customer_id = "cust_003" ∧ ev.product_id = "prod_003" ∧
        ev.event_count = 80000) := by
  intro ev hev
  have hev' := (generate_usage_events_perm g).mem_iff.mp hev
  simp only [rawUsageEvents, List.mem_append] at hev'
  rcases hev' with ((((h | h) | h) | h) | h)
  · exact Or.inl (genBlock_mem _ _ _ _ _ _ ev h)
  · exact Or.inr (Or.inl (genBlock_mem _ _ _ _ _ _ ev h))
  · exact Or.inr (Or.inr (Or.inl (genBlock_mem _ _ _ _ _ _ ev h)))
  · exact Or.inr (Or.inr (Or.inr (Or.inl (genBlock_mem _ _ _ _ _ _ ev h))))
  · exact Or.inr (Or.inr (Or.inr (Or.inr (genBlock_mem _ _ _ _ _ _ ev h))))

/-- Every generated event's timestamp lies in `[1440, 44639]` minutes
from `BASE_DATE`, for every PRNG state. -/
theorem events_ts (g : PyRandom) :
    ∀ ev ∈ (generate_usage_events g).1,
      1440 ≤ ev.timestamp ∧ ev.timestamp ≤ 44639 := by
  intro ev hev
  have hev' := (generate_usage_events_perm g).mem_iff.mp hev
  simp only [rawUsageEvents, List.mem_append] at hev'
  rcases hev' with ((((h | h) | h) | h) | h) <;>
    exact genBlock_ts _ _ _ _ _ _ ev h

/-- Number of generated events matching a (customer, product) pair, for
every PRNG state. -/
theorem events_countP (g : PyRandom) (c p : String) :
    ((generate_usage_events g).1.countP
        (fun e => e.customer_id = c && e.product_id = p)) =
      (if "cust_001" = c ∧ "prod_002" = p then 25 else 0) +
      (if "cust_002" = c ∧ "prod_001" = p then 50 else 0) +
      (if "cust_003" = c ∧ "prod_001" = p then 50 else 0) +
      (if "cust_003" = c ∧ "prod_002" = p then 30 else 0) +
      (if "cust_003" = c ∧ "prod_003" = p then 20 else 0) := by
  rw [(generate_usage_events_perm g).countP_eq]
  simp only [rawUsageEvents]
  rw [List.countP_append, List.countP_append, List.countP_append,
    List.countP_append, genBlock_countP, genBlock_countP, genBlock_countP,
    genBlock_countP, genBlock_countP]

/-- C2: for customer cust_002 the generated usage events for prod_001 sum
to exactly 4,000,000 units (50 events of 80,000 each); under the spec's
PayAsYouGoWithFreeTier rule with free_units 1,000,000 and rate_per_unit
0.0005 (the parameters of generated contract cont_002) this yields
billable 3,000,000 and amount 1,500.00; netting against the single
generated succeeded receipt of 2,000.00 for cust_002 yields net balance
+500.00. -/
theorem C2_payg_scenario (g : PyRandom) :
    totalUsage (generate_usage_events g).1 "cust_002" "prod_001" =
      4000000 ∧
    ((generate_usage_events g).1.countP
        (fun e => e.customer_id = "cust_002" &&
          e.product_id = "prod_001")) = 50 ∧
    (∀ ev ∈ (generate_usage_events g).1,
        ev.customer_id = "cust_002" → ev.product_id = "prod_001" →
          ev.event_count = 80000) ∧
    (∀ c ∈ generate_contracts, c.contract_id = "cont_002" →
        ∃ pr, c.pricing = some pr ∧ pr.free_units = 1000000 ∧
          pr.rate_per_unit = some ⟨dec 5 4, .floatLit⟩ ∧
          evalPricing pr 4000000 =
            .ok { free_units_applied := 1000000, prepaid_units_applied := 0,
                  billable_units := 3000000, rate_used := dec 5 4,
                  amount := dec 150000 2 }) ∧
    ((generate_cash_receipts.filter
        (fun r => r.customer_id = "cust_002" &&
          r.status = "succeeded")).map (fun r => r.amount.val) =
      [dec 200000 2]) ∧
    netBalance generate_cash_receipts "cust_002" (dec 150000 2) = 500 := by
  refine ⟨?_, ?_, ?_, ?_, ?_, ?_⟩
  · rw [events_totalUsage]; simp
  · rw [events_countP]; simp
  · intro ev hev h1 h2
    rcases events_mem g ev hev with h | h | h | h | h <;> simp_all
  · intro c hc hid
    simp only [generate_contracts, List.mem_cons,
      List.not_mem_nil, or_false] at hc
    rcases hc with rfl | rfl | rfl
    · simp at hid
    · refine ⟨_, rfl, rfl, rfl, ?_⟩
      simp only [evalPricing]
      simp
      norm_num [evalPAYG, dec, roundCents, roundHalfEven]
    · simp at hid
  · simp [generate_cash_receipts]
  · simp [netBalance, receiptsTotal, generate_cash_receipts]
    norm_num [dec]

/-- Witness for C2 at the concrete PRNG state seeded with 42. -/
theorem C2_payg_scenario_witness :
    totalUsage (generate_usage_events (random_seed 42)).1 "cust_002"
        "prod_001" = 4000000 ∧
      netBalance generate_cash_receipts "cust_002" (dec 150000 2) = 500 :=
  ⟨(C2_payg_scenario (random_seed 42)).1,
    (C2_payg_scenario (random_seed 42)).2.2.2.2.2⟩

/-- C3: for customer cust_003 the generated usage events for prod_001 sum
to exactly 6,000,000 units (50 events of 120,000 each); the generated
PrepaidWithFreeTier component of cont_003 for prod_001 has free_units
1,000,000, included_units 5,000,000 and overage_rate 0.00025, and under
the spec's prepaid rule the quantity decomposes as free slice 1,000,000,
prepaid slice 5,000,000 and overage slice 0, so the per-unit overage
amount is 0. -/
theorem C3_prepaid_exact_fit (g : PyRandom) :
    totalUsage (generate_usage_events g).1 "cust_003" "prod_001" =
      6000000 ∧
    ((generate_usage_events g).1.countP
        (fun e => e.customer_id = "cust_003" &&
          e.product_id = "prod_001")) = 50 ∧
    (∀ ev ∈ (generate_usage_events g).1,
        ev.customer_id = "cust_003" → ev.product_id = "prod_001" →
          ev.event_count = 120000) ∧
    (∀ c ∈ generate_contracts, c.contract_id = "cont_003" →
        ∀ comp ∈ c.components, comp.product_id = "prod_001" →
          comp.pricing.free_units = 1000000 ∧
          comp.pricing.included_units = some 5000000 ∧
          comp.pricing.overage_rate = some ⟨dec 25 5, .floatLit⟩ ∧
          evalPricing comp.pricing 6000000 =
            .ok { free_units_applied := 1000000,
                  prepaid_units_applied := 5000000, billable_units := 0,
                  rate_used := dec 25 5, amount := 0 }) := by
  refine ⟨?_, ?_, ?_, ?_⟩
  · rw [events_totalUsage]; simp
  · rw [events_countP]; simp
  · intro ev hev h1 h2
    rcases events_mem g ev hev with h | h | h | h | h <;> simp_all
  · intro c hc hid
    simp only [generate_contracts, List.mem_cons,
      List.not_mem_nil, or_false] at hc
    rcases hc with rfl | rfl | rfl
    · simp at hid
    · simp at hid
    · intro comp hcomp hp
      simp only [List.mem_cons, List.not_mem_nil, or_false] at hcomp
      rcases hcomp with rfl | rfl | rfl
      · refine ⟨rfl, rfl, rfl, ?_⟩
        simp only [evalPricing]
        simp
        norm_num [evalPrepaid, dec, roundCents, roundHalfEven]
      · simp at hp
      · simp at hp

/-- Witness for C3 at the concrete PRNG state seeded with 42. -/
theorem C3_prepaid_exact_fit_witness :
    totalUsage (generate_usage_events (random_seed 42)).1 "cust_003"
      "prod_001" = 6000000 :=
  (C3_prepaid_exact_fit (random_seed 42)).1

/-- C4: for customer cust_001 the generated usage events for prod_002 sum
to exactly 800,000 units (25 events of 32,000 each), at most the FreeTier
free_units 1,000,000 of generated contract cont_001, so the FreeTier rule
gives amount 0; and no generated fixture exercises usage beyond a pure
FreeTier allowance: every free_tier component's aggregated usage is at
most its free_units. -/
theorem C4_free_tier_under_limit (g : PyRandom) :
    totalUsage (generate_usage_events g).1 "cust_001" "prod_002" =
      800000 ∧
    ((generate_usage_events g).1.countP
        (fun e => e.customer_id = "cust_001" &&
          e.product_id = "prod_002")) = 25 ∧
    (∀ ev ∈ (generate_usage_events g).1,
        ev.customer_id = "cust_001" → ev.product_id = "prod_002" →
          ev.event_count = 32000) ∧
    (∀ c ∈ generate_contracts, c.contract_id = "cont_001" →
        ∃ pr, c.pricing = some pr ∧ pr.free_units = 1000000 ∧
          evalPricing pr 800000 =
            .ok { free_units_applied := 800000, prepaid_units_applied := 0,
                  billable_units := 0, rate_used := 0, amount := 0 }) ∧
    (∀ c ∈ generate_contracts, ∀ comp ∈ contractComponents c,
        comp.pricing.model = "free_tier" →
          totalUsage (generate_usage_events g).1 c.customer_id
              comp.product_id ≤ comp.pricing.free_units) := by
  refine ⟨?_, ?_, ?_, ?_, ?_⟩
  · rw [events_totalUsage]; simp
  · rw [events_countP]; simp
  · intro ev hev h1 h2
    rcases events_mem g ev hev with h | h | h | h | h <;> simp_all
  · intro c hc hid
    simp only [generate_contracts, List.mem_cons,
      List.not_mem_nil, or_false] at hc
    rcases hc with rfl | rfl | rfl
    · refine ⟨_, rfl, rfl, ?_⟩
      simp only [evalPricing]
      simp
      norm_num [evalFreeTier]
    · simp at hid
    · simp at hid
  · intro c hc comp hcomp hm
    simp only [generate_contracts, List.mem_cons,
      List.not_mem_nil, or_false] at hc
    rcases hc with rfl | rfl | rfl
    · simp only [contractComponents, List.mem_cons,
        List.not_mem_nil, or_false] at hcomp
      subst hcomp
      rw [events_totalUsage]
      simp
    · simp only [contractComponents, List.mem_cons,
        List.not_mem_nil, or_false] at hcomp
      subst hcomp
      simp at hm
    · simp only [contractComponents, List.mem_cons,
        List.not_mem_nil, or_false] at hcomp
      rcases hcomp with rfl | rfl | rfl <;> simp at hm

/-- Witness for C4 at the concrete PRNG state seeded with 42. -/
theorem C4_free_tier_under_limit_witness :
    totalUsage (generate_usage_events (random_seed 42)).1 "cust_001"
      "prod_002" = 800000 :=
  (C4_free_tier_under_limit (random_seed 42)).1

/-- C5 counterexample: it is not the case that a free_tier pricing record
in the generated contracts carries no overage rate — the free_tier
pricing of cont_001 carries an explicit `overage_rate` key. -/
theorem C5_counterexample :
    ¬ (∀ c ∈ generate_contracts, ∀ comp ∈ contractComponents c,
        comp.pricing.model = "free_tier" →
          comp.pricing.overage_rate = none) := by
  decide

/-- C5 (amended): exactly one free_tier pricing record occurs in the
generated contracts (on cont_001); it has free_units 1,000,000 and an
explicit overage_rate of 0.0 rather than an absent overage-rate key, and
carries no rate_per_unit, upfront_payment or included_units. -/
theorem C5_free_tier_fields :
    ((allComponents generate_contracts).filter
        (fun p => p.2.pricing.model = "free_tier")).map
      (fun p => p.2.pricing) =
      [{ model := "free_tier", free_units := 1000000,
         rate_per_unit := none,
         overage_rate := some ⟨dec 0 1, NumRep.floatLit⟩,
         upfront_payment := none, included_units := none }] := by
  rfl

/-- The list of every money amount and per-unit rate literal occurring in
the generated fixtures: contract pricing rates, overage rates and upfront
payments, and cash receipt amounts. -/
def moneyLiterals : List PyNum :=
  ((allComponents generate_contracts).flatMap
      (fun p => p.2.pricing.rate_per_unit.toList ++
        p.2.pricing.overage_rate.toList ++
        p.2.pricing.upfront_payment.toList)) ++
    generate_cash_receipts.map (fun r => r.amount)

/-- C6 counterexample: the generated fixtures do use binary floating-point
values for amounts — every money and rate field is a Python `float`
literal; in particular the rate_per_unit 0.0005 of cont_002 is carried in
a binary floating-point value, and no binary floating-point value of any
precision equals the exact decimal 0.0005, because 0.0005 = 1/2000 is not
a dyadic rational. -/
theorem C6_counterexample :
    (∃ c ∈ generate_contracts, ∃ pr, c.pricing = some pr ∧
        pr.rate_per_unit = some ⟨dec 5 4, NumRep.floatLit⟩) ∧
      ¬ IsDyadic (dec 5 4) := by
  constructor
  · exact ⟨_, List.mem_cons_of_mem _ (List.mem_cons_self _ _), _, rfl, rfl⟩
  · rintro ⟨m, e, h⟩
    have h2 : (5 : ℚ) * 2 ^ e = 10 ^ 4 * m := by
      rw [dec] at h
      field_simp at h
      linarith
    have h3 : (5 : ℤ) * 2 ^ e = 10 ^ 4 * m := by exact_mod_cast h2
    have h625 : (625 : ℤ) ∣ 5 * 2 ^ e := ⟨16 * m, by linarith⟩
    obtain ⟨k, hk⟩ := h625
    have h125 : (5 : ℤ) ∣ 2 ^ e := by
      refine dvd_trans ⟨25, rfl⟩ (⟨k, by omega⟩ : (125 : ℤ) ∣ 2 ^ e)
    have h52 : (5 : ℤ) ∣ 2 := Int.Prime.dvd_pow' (by norm_num) h125
    omega

/-- C6 (amended): every money amount and per-unit rate in the generated
fixtures is written as an exact decimal literal of at most five decimal
places (so the values as written are exact fixed-point decimals), but
each is represented as a Python binary floating-point literal, not as an
exact fixed-point decimal type. -/
theorem C6_money_literals :
    ∀ x ∈ moneyLiterals,
      x.rep = NumRep.floatLit ∧ ∃ n : ℤ, x.val * 10 ^ 5 = n := by
  intro x hx
  rw [show moneyLiterals = [⟨dec 0 1, .floatLit⟩, ⟨dec 5 4, .floatLit⟩,
    ⟨dec 2 4, .floatLit⟩, ⟨dec 25 5, .floatLit⟩,
    ⟨dec 100000 2, .floatLit⟩, ⟨dec 8 4, .floatLit⟩,
    ⟨dec 8 5, .floatLit⟩, ⟨dec 200000 2, .floatLit⟩,
    ⟨dec 100000 2, .floatLit⟩] from rfl] at hx
  simp only [List.mem_cons, List.not_mem_nil, or_false] at hx
  rcases hx with rfl | rfl | rfl | rfl | rfl | rfl | rfl | rfl | rfl
  · exact ⟨rfl, 0, by norm_num [dec]⟩
  · exact ⟨rfl, 50, by norm_num [dec]⟩
  · exact ⟨rfl, 20, by norm_num [dec]⟩
  · exact ⟨rfl, 25, by norm_num [dec]⟩
  · exact ⟨rfl, 100000000, by norm_num [dec]⟩
  · exact ⟨rfl, 80, by norm_num [dec]⟩
  · exact ⟨rfl, 8, by norm_num [dec]⟩
  · exact ⟨rfl, 200000000, by norm_num [dec]⟩
  · exact ⟨rfl, 100000000, by norm_num [dec]⟩

/-- Witness for the amended C6 at the concrete rate literal 0.0005 of
cont_002. -/
theorem C6_money_literals_witness :
    (⟨dec 5 4, NumRep.floatLit⟩ : PyNum).rep = NumRep.floatLit ∧
      ∃ n : ℤ, (⟨dec 5 4, NumRep.floatLit⟩ : PyNum).val * 10 ^ 5 = n :=
  C6_money_literals _ (by
    rw [show moneyLiterals = [⟨dec 0 1, .floatLit⟩, ⟨dec 5 4, .floatLit⟩,
      ⟨dec 2 4, .floatLit⟩, ⟨dec 25 5, .floatLit⟩,
      ⟨dec 100000 2, .floatLit⟩, ⟨dec 8 4, .floatLit⟩,
      ⟨dec 8 5, .floatLit⟩, ⟨dec 200000 2, .floatLit⟩,
      ⟨dec 100000 2, .floatLit⟩] from rfl]
    exact List.mem_cons_of_mem _ (List.mem_cons_self _ _))

/-- Numeric value of a decimal digit character. -/
def digitVal (c : Char) : ℕ := c.toNat - 48

/-- Parse the decimal digits of an event identifier string back to the
counter value; a left inverse of `eventIdStr` on the generated range. -/
def parseId (s : String) : ℕ :=
  s.data.foldl
    (fun acc c => if c.isDigit then acc * 10 + digitVal c else acc) 0

set_option maxRecDepth 10000 in
/-- On the counter range 1..175, `parseId` inverts `eventIdStr`. -/
theorem parseId_eventIdStr :
    ∀ n ∈ List.range' 1 175, parseId (eventIdStr n) = n := by decide

/-- The 175 event identifier strings `evt_000001` .. `evt_000175` are
pairwise distinct. -/
theorem eventIds_nodup : ((List.range' 1 175).map eventIdStr).Nodup := by
  refine List.Nodup.map_on ?_ ?_
  · intro x hx y hy hxy
    rw [← parseId_eventIdStr x hx, ← parseId_eventIdStr y hy, hxy]
  · exact List.nodup_range' _ _

/-- The identifiers of the raw (unsorted) generated events are exactly
`eventIdStr` of the counter values 1..175, in order. -/
theorem raw_ids (g : PyRandom) :
    (rawUsageEvents g).1.map (fun e => e.event_id) =
      (List.range' 1 175).map eventIdStr := by
  simp only [rawUsageEvents, List.map_append, genBlock_ids]
  rw [← List.map_append, ← List.map_append, ← List.map_append,
    ← List.map_append]
  congr 1

/-- C7: the generator emits 175 usage events; their event_id strings are
(a permutation of) the counter strings evt_000001 .. evt_000175 and are
pairwise distinct, and every event's quantity is a non-negative
integer. -/
theorem C7_unique_event_ids (g : PyRandom) :
    (generate_usage_events g).1.length = 175 ∧
    ((generate_usage_events g).1.map (fun e => e.event_id)).Perm
      ((List.range' 1 175).map eventIdStr) ∧
    ((generate_usage_events g).1.map (fun e => e.event_id)).Nodup ∧
    (∀ ev ∈ (generate_usage_events g).1, 0 ≤ ev.event_count) := by
  have hperm : ((generate_usage_events g).1.map
      (fun e => e.event_id)).Perm ((List.range' 1 175).map eventIdStr) := by
    rw [← raw_ids g]
    exact (generate_usage_events_perm g).map _
  refine ⟨events_length g, hperm, (hperm.nodup_iff).mpr eventIds_nodup, ?_⟩
  intro ev hev
  rcases events_mem g ev hev with ⟨-, -, h⟩ | ⟨-, -, h⟩ | ⟨-, -, h⟩ |
    ⟨-, -, h⟩ | ⟨-, -, h⟩ <;> omega

/-- Witness for C7 at the concrete PRNG state seeded with 42. -/
theorem C7_unique_event_ids_witness :
    (generate_usage_events (random_seed 42)).1.length = 175 :=
  (C7_unique_event_ids (random_seed 42)).1

/-- C10: every generated usage event's timestamp lies in the closed range
[BASE_DATE + 1 day, BASE_DATE + 30 days + 23 hours + 59 minutes], hence
strictly inside every generated contract's [start, start + 365 days)
validity interval; and a timestamp can fall on or after BASE_DATE + 30
days (2024-12-01), outside the calendar month of BASE_DATE. -/
theorem C10_timestamp_range (g : PyRandom) :
    (∀ ev ∈ (generate_usage_events g).1,
        BASE_DATE + timedelta 1 0 0 ≤ ev.timestamp ∧
          ev.timestamp ≤ BASE_DATE + timedelta 30 23 59) ∧
    (∀ ev ∈ (generate_usage_events g).1, ∀ c ∈ generate_contracts,
        c.start_date < ev.timestamp ∧ ev.timestamp < c.end_date) ∧
    (∃ g0 : PyRandom, ∃ ev ∈ (generate_usage_events g0).1,
        BASE_DATE + timedelta 30 0 0 ≤ ev.timestamp) := by
  refine ⟨?_, ?_, ?_⟩
  · intro ev hev
    have h := events_ts g ev hev
    simp only [BASE_DATE, timedelta]
    omega
  · intro ev hev c hc
    have h := events_ts g ev hev
    simp only [generate_contracts, List.mem_cons,
      List.not_mem_nil, or_false] at hc
    rcases hc with rfl | rfl | rfl <;>
      simp only [BASE_DATE, timedelta] <;> omega
  · refine ⟨random_seed 24,
      (genEvent "cust_001" "prod_002" 32000 1 (random_seed 24)).1, ?_, ?_⟩
    · apply (generate_usage_events_perm (random_seed 24)).mem_iff.mpr
      simp only [rawUsageEvents]
      apply List.mem_append_left
      apply List.mem_append_left
      apply List.mem_append_left
      apply List.mem_append_left
      exact List.mem_cons_self _ _
    · decide

/-- Witness for C10: some PRNG state yields a timestamp on or after
BASE_DATE + 30 days. -/
theorem C10_timestamp_range_witness :
    ∃ g0 : PyRandom, ∃ ev ∈ (generate_usage_events g0).1,
      BASE_DATE + timedelta 30 0 0 ≤ ev.timestamp :=
  (C10_timestamp_range (random_seed 42)).2.2

/-- A list whose elements have pairwise distinct keys matches any
predicate that pins the key down at most once. -/
theorem countP_le_one_of_key {α κ : Type} [DecidableEq κ] :
    ∀ (l : List α) (key : α → κ), (l.map key).Nodup →
      ∀ (p : α → Bool) (k : κ), (∀ a, p a = true → key a = k) →
        l.countP p ≤ 1
  | [], _, _, _, _, _ => by simp
  | a :: l, key, hnd, p, k, hp => by
    rw [List.countP_cons]
    simp only [List.map_cons, List.nodup_cons] at hnd
    by_cases ha : p a = true
    · have hzero : l.countP p = 0 := by
        rw [List.countP_eq_zero]
        intro b hb hpb
        exact hnd.1 (by
          rw [hp a ha, ← hp b hpb]
          exact List.mem_map_of_mem key hb)
      simp [ha, hzero]
    · have := countP_le_one_of_key l key hnd.2 p k hp
      simp [ha]
      omega

/-- Every component of a contract of the list is an element of
`allComponents`. -/
theorem mem_allComponents {cs : List Contract} {c : Contract}
    (hc : c ∈ cs) {comp : Component} (hcomp : comp ∈ contractComponents c) :
    (c, comp) ∈ allComponents cs := by
  simp only [allComponents, List.mem_flatMap]
  exact ⟨c, hc, List.mem_map_of_mem _ hcomp⟩

/-- The (customer, product) keys of the five generated contract
components are pairwise distinct. -/
theorem allComponents_keys_nodup :
    ((allComponents generate_contracts).map
      (fun p => (p.1.customer_id, p.2.product_id))).Nodup := by decide

/-- C8: components are pairwise distinct by product within each generated
contract; at every instant, at most one generated (contract, component)
pair covers any (customer, product) pair; and every generated usage
event's (customer, product, timestamp) is covered by exactly one
generated contract component. -/
theorem C8_unique_coverage (g : PyRandom) :
    (∀ c ∈ generate_contracts,
        ((contractComponents c).map (fun comp => comp.product_id)).Nodup) ∧
    (∀ cust prod : String, ∀ t : ℕ,
        ((allComponents generate_contracts).countP
            (fun p => covers p.1 p.2 cust prod t)) ≤ 1) ∧
    (∀ ev ∈ (generate_usage_events g).1,
        ((allComponents generate_contracts).countP
            (fun p => covers p.1 p.2 ev.customer_id ev.product_id
              ev.timestamp)) = 1) := by
  have hle : ∀ cust prod : String, ∀ t : ℕ,
      ((allComponents generate_contracts).countP
        (fun p => covers p.1 p.2 cust prod t)) ≤ 1 := by
    intro cust prod t
    refine countP_le_one_of_key _
      (fun p => (p.1.customer_id, p.2.product_id))
      allComponents_keys_nodup _ (cust, prod) ?_
    intro a ha
    simp only [covers, Bool.and_eq_true, decide_eq_true_eq] at ha
    simp [ha.1.1, ha.1.2]
  refine ⟨by decide, hle, ?_⟩
  intro ev hev
  have hts := events_ts g ev hev
  have hpos : 0 < ((allComponents generate_contracts).countP
      (fun p => covers p.1 p.2 ev.customer_id ev.product_id
        ev.timestamp)) := by
    rw [List.countP_pos_iff]
    rcases events_mem g ev hev with ⟨h1, h2, -⟩ | ⟨h1, h2, -⟩ |
      ⟨h1, h2, -⟩ | ⟨h1, h2, -⟩ | ⟨h1, h2, -⟩
    · refine ⟨_, mem_allComponents (List.mem_cons_self _ _)
        (List.mem_cons_self _ _), ?_⟩
      simp [covers, h1, h2, BASE_DATE, timedelta]
      omega
    · refine ⟨_, mem_allComponents
        (List.mem_cons_of_mem _ (List.mem_cons_self _ _))
        (List.mem_cons_self _ _), ?_⟩
      simp [covers, h1, h2, BASE_DATE, timedelta]
      omega
    · refine ⟨_, mem_allComponents
        (List.mem_cons_of_mem _ (List.mem_cons_of_mem _
          (List.mem_cons_self _ _)))
        (List.mem_cons_self _ _), ?_⟩
      simp [covers, h1, h2, BASE_DATE, timedelta]
      omega
    · refine ⟨_, mem_allComponents
        (List.mem_cons_of_mem _ (List.mem_cons_of_mem _
          (List.mem_cons_self _ _)))
        (List.mem_cons_of_mem _ (List.mem_cons_self _ _)), ?_⟩
      simp [covers, h1, h2, BASE_DATE, timedelta]
      omega
    · refine ⟨_, mem_allComponents
        (List.mem_cons_of_mem _ (List.mem_cons_of_mem _
          (List.mem_cons_self _ _)))
        (List.mem_cons_of_mem _ (List.mem_cons_of_mem _
          (List.mem_cons_self _ _))), ?_⟩
      simp [covers, h1, h2, BASE_DATE, timedelta]
      omega
  have := hle ev.customer_id ev.product_id ev.timestamp
  omega

/-- Witness for C8: the at-most-one-cover bound at a concrete key and
instant. -/
theorem C8_unique_coverage_witness :
    ((allComponents generate_contracts).countP
        (fun p => covers p.1 p.2 "cust_001" "prod_002" 1440)) ≤ 1 :=
  (C8_unique_coverage (random_seed 42)).2.1 "cust_001" "prod_002" 1440

/-- C1: generation is a deterministic function of the PRNG states.  The
program fixes both states by `Faker.seed(42)` and `random.seed(42)`, so
two runs over the same configuration produce identical customers,
products, contracts, usage events and cash receipts. -/
theorem C1_deterministic (f1 f2 : FakerState) (g1 g2 : PyRandom)
    (hf1 : f1 = Faker_seed 42) (hf2 : f2 = Faker_seed 42)
    (hg1 : g1 = random_seed 42) (hg2 : g2 = random_seed 42) :
    main_run f1 g1 = main_run f2 g2 := by
  subst hf1; subst hf2; subst hg1; subst hg2; rfl

/-- Witness for C1: two concrete runs from the seeded states coincide. -/
theorem C1_deterministic_witness :
    main_run (Faker_seed 42) (random_seed 42) =
      main_run (Faker_seed 42) (random_seed 42) :=
  C1_deterministic (Faker_seed 42) (Faker_seed 42) (random_seed 42)
    (random_seed 42) rfl rfl rfl rfl

/-- C9: the generated PrepaidWithFreeTier component (cont_003, customer
cust_003, product prod_001) carries upfront_payment 1000.00, and the
generated succeeded cash receipt for cust_003 has the same amount
1000.00; the upfront payment is recorded as a receipt, and the spec's
pricing evaluator computes the per-unit amount without reading the
upfront payment (it is never deducted from per-unit charges). -/
theorem C9_upfront_payment_as_receipt :
    (((allComponents generate_contracts).filter
        (fun p => p.2.pricing.model = "prepaid_with_free_tier")).map
      (fun p => (p.1.customer_id, p.2.product_id,
        p.2.pricing.upfront_payment)) =
      [("cust_003", "prod_001", some ⟨dec 100000 2, NumRep.floatLit⟩)]) ∧
    ((generate_cash_receipts.filter
        (fun r => r.customer_id = "cust_003" &&
          r.status = "succeeded")).map (fun r => r.amount) =
      [⟨dec 100000 2, NumRep.floatLit⟩]) ∧
    (∀ p : Pricing, ∀ u : Option PyNum, ∀ qty : ℤ,
        evalPricing { p with upfront_payment := u } qty =
          evalPricing p qty) := by
  refine ⟨rfl, rfl, ?_⟩
  intro p u qty
  rfl
